import Mathlib

/-!
Verification of the configuration and crawl-budget core of the `spider`
web-crawling library (files `spider/src/configuration.rs` and
`examples/budget.rs`).

The Rust code is shallowly embedded: `Configuration` becomes a Lean
structure, the builder setters become pure functions returning the
updated configuration (the Rust versions mutate `&mut self` in place and
return it for chaining), `Duration` is modelled as a `Nat` of
milliseconds, `CompactString` as `String`, `reqwest::header::HeaderMap`
as an association list of string pairs, and the
`HashSet<CaseInsensitiveString>` of the initial queue as a list of
strings considered up to ASCII-case-insensitive equality.
-/

namespace Spider

/-- ASCII case folding of a string, character by character. -/
def ciKey (s : String) : List Char :=
  s.data.map Char.toLower

/-- Case-insensitive equality of strings, modelling equality of the Rust
`CaseInsensitiveString` wrapper used by `initial_queue` (it compares the
ASCII-lowercased contents). -/
def ciEq (a b : String) : Bool :=
  ciKey a == ciKey b

/-- Insertion into a `HashSet<CaseInsensitiveString>`: a new element is
added only when no case-insensitively equal element is already present
(Rust `HashSet::insert` keeps the existing element). -/
def ciInsert (l : List String) (a : String) : List String :=
  if l.any (fun b => ciEq a b) then l else a :: l

/-- Deduplication invariant of a `HashSet<CaseInsensitiveString>`: no two
elements are case-insensitively equal. -/
def ciDeduped : List String → Bool
  | [] => true
  | a :: t => !(t.any (fun b => ciEq a b)) && ciDeduped t

/-- Shallow embedding of `struct Configuration` from
`spider/src/configuration.rs` (built without the optional `sitemap`
feature, so there is no `sitemap_url` field). -/
structure Configuration where
  respect_robots_txt : Bool
  subdomains : Bool
  tld : Bool
  blacklist_url : Option (List String)
  user_agent : Option String
  delay : Nat
  request_timeout : Option Nat
  http2_prior_knowledge : Bool
  proxies : Option (List String)
  headers : Option (List (String × String))
  initial_queue : List String
deriving Repr, DecidableEq

/-- The `#[derive(Default)]` instance of `Configuration`: every `bool` is
`false`, every `Option` is `None`, `delay` is `0` and the set is empty. -/
def Configuration.defaultConfig : Configuration :=
  { respect_robots_txt := false
    subdomains := false
    tld := false
    blacklist_url := none
    user_agent := none
    delay := 0
    request_timeout := none
    http2_prior_knowledge := false
    proxies := none
    headers := none
    initial_queue := [] }

/-- `Configuration::new()`: `delay` is set to `0`, `request_timeout` to
`Some(Duration::from_millis(15000))`, every other field comes from
`..Default::default()`. -/
def Configuration.new : Configuration :=
  { Configuration.defaultConfig with
    delay := 0
    request_timeout := some 15000 }

/-- `Configuration::with_respect_robots_txt`. -/
def Configuration.with_respect_robots_txt (c : Configuration) (b : Bool) :
    Configuration :=
  { c with respect_robots_txt := b }

/-- `Configuration::with_subdomains`. -/
def Configuration.with_subdomains (c : Configuration) (b : Bool) :
    Configuration :=
  { c with subdomains := b }

/-- `Configuration::with_tld`. -/
def Configuration.with_tld (c : Configuration) (b : Bool) : Configuration :=
  { c with tld := b }

/-- `Configuration::with_delay`. -/
def Configuration.with_delay (c : Configuration) (d : Nat) : Configuration :=
  { c with delay := d }

/-- `Configuration::with_http2_prior_knowledge`. -/
def Configuration.with_http2_prior_knowledge (c : Configuration) (b : Bool) :
    Configuration :=
  { c with http2_prior_knowledge := b }

/-- `Configuration::with_request_timeout`: stores `Some(timeout)` verbatim
or clears the field to `None`. -/
def Configuration.with_request_timeout (c : Configuration)
    (t : Option Nat) : Configuration :=
  match t with
  | some timeout => { c with request_timeout := some timeout }
  | none => { c with request_timeout := none }

/-- `Configuration::with_user_agent`: stores a copy of the string
(`CompactString::new(agent.to_string())`) or clears. -/
def Configuration.with_user_agent (c : Configuration) (u : Option String) :
    Configuration :=
  match u with
  | some agent => { c with user_agent := some agent }
  | none => { c with user_agent := none }

/-- `Configuration::with_proxies`: replaces the proxy list or clears. -/
def Configuration.with_proxies (c : Configuration)
    (p : Option (List String)) : Configuration :=
  match p with
  | some l => { c with proxies := some l }
  | none => { c with proxies := none }

/-- `Configuration::with_blacklist_url`: stores the raw pattern list
(converted element-wise into `CompactString`) or clears; no compilation
happens here. -/
def Configuration.with_blacklist_url (c : Configuration)
    (l : Option (List String)) : Configuration :=
  match l with
  | some p => { c with blacklist_url := some p }
  | none => { c with blacklist_url := none }

/-- `Configuration::with_headers`: replaces the header map or clears. -/
def Configuration.with_headers (c : Configuration)
    (h : Option (List (String × String))) : Configuration :=
  match h with
  | some m => { c with headers := some m }
  | none => { c with headers := none }

/-- `Configuration::with_initial_queue`: replaces the seed frontier
wholesale with the given `HashSet<CaseInsensitiveString>`. -/
def Configuration.with_initial_queue (c : Configuration)
    (q : List String) : Configuration :=
  { c with initial_queue := q }

/-- Shallow embedding of `regex::RegexSet`: for this development only its
matching behaviour matters, so a compiled set is its match function. -/
structure RegexSet where
  isMatch : String → Bool

/-- `Default::default()` for `regex::RegexSet`: the empty set, which
matches no string. -/
def RegexSet.defaultSet : RegexSet :=
  ⟨fun _ => false⟩

/-- `Configuration::get_blacklist` (with the `regex` feature): compile
the stored pattern list with `regex::RegexSet::new`, falling back to the
default (empty, always-false) set when the field is absent or when
compilation fails.  The regex compiler itself is external to this core,
so it is passed as the parameter `compile` (its result is `Except`,
mirroring Rust `Result`). -/
def Configuration.get_blacklist
    (compile : List String → Except Unit RegexSet)
    (c : Configuration) : RegexSet :=
  match c.blacklist_url with
  | some blacklist =>
    match compile blacklist with
    | .ok s => s
    | .error _ => RegexSet.defaultSet
  | none => RegexSet.defaultSet

/-- One call of the builder API of `Configuration` (the setters defined
in `spider/src/configuration.rs`). -/
inductive BuilderCall where
  | respectRobotsTxt (b : Bool)
  | subdomains (b : Bool)
  | tld (b : Bool)
  | delay (d : Nat)
  | http2PriorKnowledge (b : Bool)
  | requestTimeout (t : Option Nat)
  | userAgent (u : Option String)
  | proxies (p : Option (List String))
  | blacklistUrl (l : Option (List String))
  | headers (h : Option (List (String × String)))
  | initialQueue (q : List String)

/-- Apply one builder call to a configuration. -/
def applyCall (c : Configuration) : BuilderCall → Configuration
  | .respectRobotsTxt b => c.with_respect_robots_txt b
  | .subdomains b => c.with_subdomains b
  | .tld b => c.with_tld b
  | .delay d => c.with_delay d
  | .http2PriorKnowledge b => c.with_http2_prior_knowledge b
  | .requestTimeout t => c.with_request_timeout t
  | .userAgent u => c.with_user_agent u
  | .proxies p => c.with_proxies p
  | .blacklistUrl l => c.with_blacklist_url l
  | .headers h => c.with_headers h
  | .initialQueue q => c.with_initial_queue q

/-- Apply a sequence of builder calls, left to right. -/
def applyCalls (c : Configuration) (cs : List BuilderCall) : Configuration :=
  cs.foldl applyCall c

/-- A builder call never passes a zero duration to
`with_request_timeout`. -/
def timeoutArgPositive : BuilderCall → Prop
  | .requestTimeout (some t) => 0 < t
  | _ => True

/-- Modelled from the spec: the Budget Table of §3/§4.2 is not under
`src/` (only its caller `examples/budget.rs` is); it maps a segment key
to its remaining quota, with `none` for keys that have no entry. -/
abbrev Budget := String → Option Nat

/-- Modelled from the spec: segment-key derivation of §4.2 step 1 — the
first non-empty path segment of the URL path, when one exists (e.g.
`"en"` for the path `"/en/page"`, nothing for the root path `"/"`). -/
def firstSegment (path : String) : Option String :=
  match path.data.dropWhile (fun c => c == '/') with
  | [] => none
  | c :: cs => some (String.mk ((c :: cs).takeWhile (fun d => d != '/')))

/-- Modelled from the spec: the resolved key of §4.2 — the segment key
when it has an entry in the table, else the wildcard key. -/
def resolveKey (b : Budget) (path : String) : String :=
  match firstSegment path with
  | some s => if (b s).isSome then s else "*"
  | none => "*"

/-- Modelled from the spec: the admission operation of §4.2 steps 2–3 —
the URL passes unconditionally when the table has neither the resolved
key nor the wildcard; otherwise it passes, and the quota is decremented,
exactly when the resolved quota is positive.  Concurrent admissions are linearizable by the
atomicity required in §4.2 step 4, so a crawl is modelled as a sequence
of `admitUrl` calls. -/
def admitUrl (b : Budget) (path : String) : Bool × Budget :=
  let key := resolveKey b path
  match b key with
  | none => (true, b)
  | some q =>
    if 0 < q then
      (true, fun s => if s = key then some (q - 1) else b s)
    else
      (false, b)

/-- Run `admitUrl` over a list of candidate URLs, returning how many of the
admitted URLs resolved to the key `k` together with the final table. -/
def runQuota (k : String) (b : Budget) : List String → Nat × Budget
  | [] => (0, b)
  | p :: ps =>
    ((if (admitUrl b p).1 && (resolveKey b p == k) then 1 else 0) +
        (runQuota k (admitUrl b p).2 ps).1,
      (runQuota k (admitUrl b p).2 ps).2)

/-- The budget table of `examples/budget.rs`:
`{"*": 15, "en": 11, "fr": 3}`. -/
def exampleBudget : Budget := fun s =>
  if s = "*" then some 15
  else if s = "en" then some 11
  else if s = "fr" then some 3
  else none

/-- C4: `Configuration::new()` returns a configuration with
`respect_robots_txt = false`, `subdomains = false`, `tld = false`,
`http2_prior_knowledge = false`, `delay = 0`, and `request_timeout`
present and equal to 15000 milliseconds. -/
theorem new_defaults :
    Configuration.new.respect_robots_txt = false ∧
    Configuration.new.subdomains = false ∧
    Configuration.new.tld = false ∧
    Configuration.new.http2_prior_knowledge = false ∧
    Configuration.new.delay = 0 ∧
    Configuration.new.request_timeout = some 15000 :=
  ⟨rfl, rfl, rfl, rfl, rfl, rfl⟩

/-- C5: every builder setter succeeds unconditionally (it is a total
function), stores the given value into its field — a copy for `Some`
arguments, `None` for `None` arguments of the optional setters — and the
value it returns for chaining is the updated configuration itself. -/
theorem setters_store_values :
    ∀ (c : Configuration) (b : Bool) (d : Nat) (t : Nat) (u : String)
      (p : List String) (l : List String) (h : List (String × String))
      (q : List String),
      (c.with_respect_robots_txt b).respect_robots_txt = b ∧
      (c.with_subdomains b).subdomains = b ∧
      (c.with_tld b).tld = b ∧
      (c.with_delay d).delay = d ∧
      (c.with_http2_prior_knowledge b).http2_prior_knowledge = b ∧
      (c.with_request_timeout (some t)).request_timeout = some t ∧
      (c.with_request_timeout none).request_timeout = none ∧
      (c.with_user_agent (some u)).user_agent = some u ∧
      (c.with_user_agent none).user_agent = none ∧
      (c.with_proxies (some p)).proxies = some p ∧
      (c.with_proxies none).proxies = none ∧
      (c.with_blacklist_url (some l)).blacklist_url = some l ∧
      (c.with_blacklist_url none).blacklist_url = none ∧
      (c.with_headers (some h)).headers = some h ∧
      (c.with_headers none).headers = none ∧
      (c.with_initial_queue q).initial_queue = q :=
  fun _ _ _ _ _ _ _ _ _ =>
    ⟨rfl, rfl, rfl, rfl, rfl, rfl, rfl, rfl, rfl, rfl, rfl, rfl, rfl,
      rfl, rfl, rfl⟩

/-- C6: every builder setter modifies only the field it is named for:
restoring that one field to its old value recovers the original
configuration, so every other field is unchanged. -/
theorem setters_frame :
    ∀ (c : Configuration) (b : Bool) (d : Nat) (t : Option Nat)
      (u : Option String) (p : Option (List String))
      (l : Option (List String)) (h : Option (List (String × String)))
      (q : List String),
      { c.with_respect_robots_txt b with
        respect_robots_txt := c.respect_robots_txt } = c ∧
      { c.with_subdomains b with subdomains := c.subdomains } = c ∧
      { c.with_tld b with tld := c.tld } = c ∧
      { c.with_delay d with delay := c.delay } = c ∧
      { c.with_http2_prior_knowledge b with
        http2_prior_knowledge := c.http2_prior_knowledge } = c ∧
      { c.with_request_timeout t with
        request_timeout := c.request_timeout } = c ∧
      { c.with_user_agent u with user_agent := c.user_agent } = c ∧
      { c.with_proxies p with proxies := c.proxies } = c ∧
      { c.with_blacklist_url l with blacklist_url := c.blacklist_url } = c ∧
      { c.with_headers h with headers := c.headers } = c ∧
      { c.with_initial_queue q with initial_queue := c.initial_queue } = c := by
  intro c b d t u p l h q
  refine ⟨rfl, rfl, rfl, rfl, rfl, ?_, ?_, ?_, ?_, ?_, rfl⟩
  · cases t <;> rfl
  · cases u <;> rfl
  · cases p <;> rfl
  · cases l <;> rfl
  · cases h <;> rfl

/-- C9: a `Configuration` obtained from the derived `Default` has
`request_timeout = None`, so the 15000 ms default timeout applies only
to `Configuration::new()`; every other field agrees between the two
constructors. -/
theorem default_vs_new :
    Configuration.defaultConfig.request_timeout = none ∧
    Configuration.new.request_timeout = some 15000 ∧
    { Configuration.new with request_timeout := none } =
      Configuration.defaultConfig :=
  ⟨rfl, rfl, rfl⟩

/-- C10: every builder setter is idempotent — calling it twice in
succession with the same argument yields the configuration obtained by
calling it once. -/
theorem setters_idempotent :
    ∀ (c : Configuration) (b : Bool) (d : Nat) (t : Option Nat)
      (u : Option String) (p : Option (List String))
      (l : Option (List String)) (h : Option (List (String × String)))
      (q : List String),
      (c.with_respect_robots_txt b).with_respect_robots_txt b =
        c.with_respect_robots_txt b ∧
      (c.with_subdomains b).with_subdomains b = c.with_subdomains b ∧
      (c.with_tld b).with_tld b = c.with_tld b ∧
      (c.with_delay d).with_delay d = c.with_delay d ∧
      (c.with_http2_prior_knowledge b).with_http2_prior_knowledge b =
        c.with_http2_prior_knowledge b ∧
      (c.with_request_timeout t).with_request_timeout t =
        c.with_request_timeout t ∧
      (c.with_user_agent u).with_user_agent u = c.with_user_agent u ∧
      (c.with_proxies p).with_proxies p = c.with_proxies p ∧
      (c.with_blacklist_url l).with_blacklist_url l =
        c.with_blacklist_url l ∧
      (c.with_headers h).with_headers h = c.with_headers h ∧
      (c.with_initial_queue q).with_initial_queue q =
        c.with_initial_queue q := by
  intro c b d t u p l h q
  refine ⟨rfl, rfl, rfl, rfl, rfl, ?_, ?_, ?_, ?_, ?_, rfl⟩
  · cases t <;> rfl
  · cases u <;> rfl
  · cases p <;> rfl
  · cases l <;> rfl
  · cases h <;> rfl

/-- C2: `get_blacklist` never fails — it is a total function with no
error in its return type; when `blacklist_url` is absent, and when any
pattern fails to compile, it returns the default matcher, which matches
no URL. -/
theorem get_blacklist_never_fails :
    ∀ (compile : List String → Except Unit RegexSet) (c : Configuration),
      (c.blacklist_url = none →
        Configuration.get_blacklist compile c = RegexSet.defaultSet) ∧
      (∀ bl e, c.blacklist_url = some bl → compile bl = .error e →
        Configuration.get_blacklist compile c = RegexSet.defaultSet) ∧
      (∀ url, RegexSet.defaultSet.isMatch url = false) := by
  intro compile c
  refine ⟨fun h => ?_, fun bl e hbl he => ?_, fun _ => rfl⟩
  · simp [Configuration.get_blacklist, h]
  · simp [Configuration.get_blacklist, hbl, he]

/-- Witness for C2 at the invalid pattern `"("` and a compiler that
rejects it. -/
theorem get_blacklist_never_fails_witness :
    Configuration.get_blacklist (fun _ => .error ())
        (Configuration.new.with_blacklist_url (some ["("])) =
      RegexSet.defaultSet :=
  (get_blacklist_never_fails (fun _ => .error ())
    (Configuration.new.with_blacklist_url (some ["("]))).2.1 ["("] () rfl rfl

/-- C7: `get_blacklist` is deterministic and side-effect-free — it is
embedded as a pure function of the configuration (the Rust method takes
`&self`), its result depends only on the `blacklist_url` field, and
`with_blacklist_url` stores the raw pattern list uncompiled, compilation
happening only inside `get_blacklist`. -/
theorem get_blacklist_deterministic_lazy :
    ∀ (compile : List String → Except Unit RegexSet)
      (c c2 : Configuration) (l : List String),
      (c.with_blacklist_url (some l)).blacklist_url = some l ∧
      Configuration.get_blacklist compile (c.with_blacklist_url (some l)) =
        (match compile l with
          | .ok s => s
          | .error _ => RegexSet.defaultSet) ∧
      (c2.blacklist_url = c.blacklist_url →
        Configuration.get_blacklist compile c2 =
          Configuration.get_blacklist compile c) := by
  intro compile c c2 l
  refine ⟨rfl, rfl, fun h => ?_⟩
  unfold Configuration.get_blacklist
  rw [h]

/-- Witness for C7: two configurations with equal `blacklist_url` have
equal compiled matchers. -/
theorem get_blacklist_deterministic_lazy_witness :
    Configuration.get_blacklist (fun _ => .ok RegexSet.defaultSet)
        Configuration.defaultConfig =
      Configuration.get_blacklist (fun _ => .ok RegexSet.defaultSet)
        Configuration.new :=
  (get_blacklist_deterministic_lazy (fun _ => .ok RegexSet.defaultSet)
    Configuration.new Configuration.defaultConfig []).2.2 rfl

/-- C8: the initial queue never holds two case-insensitively equal
entries — inserting `"https://A.com"` and `"https://a.com"` yields one
entry, insertion preserves the deduplication invariant, and
`with_initial_queue` stores the given (already deduplicated) set. -/
theorem initial_queue_dedup :
    (ciInsert (ciInsert [] "https://A.com") "https://a.com").length = 1 ∧
    (∀ (l : List String) (a : String),
      ciDeduped l = true → ciDeduped (ciInsert l a) = true) ∧
    (∀ (c : Configuration) (q : List String),
      ciDeduped q = true →
        ciDeduped (c.with_initial_queue q).initial_queue = true) := by
  refine ⟨by decide, fun l a h => ?_, fun c q h => h⟩
  unfold ciInsert
  by_cases hc : l.any (fun b => ciEq a b) = true
  · simpa [hc] using h
  · simp only [hc, if_neg, ciDeduped, Bool.and_eq_true, Bool.not_eq_true]
    exact ⟨by simp [hc], h⟩

/-- Witness for C8: insertion into a concrete deduplicated queue keeps
it deduplicated. -/
theorem initial_queue_dedup_witness :
    ciDeduped (ciInsert ["https://a.com"] "https://b.com") = true :=
  initial_queue_dedup.2.1 ["https://a.com"] "https://b.com" (by decide)

/-- One builder call keeps the timeout-positivity invariant, provided a
`with_request_timeout` call never receives a zero duration. -/
theorem applyCall_timeout_invariant (c : Configuration) (k : BuilderCall)
    (hc : ∀ t, c.request_timeout = some t → 0 < t)
    (hk : timeoutArgPositive k) :
    ∀ t, (applyCall c k).request_timeout = some t → 0 < t := by
  cases k with
  | requestTimeout t0 =>
    cases t0 with
    | none =>
      intro t ht
      simp [applyCall, Configuration.with_request_timeout] at ht
    | some t1 =>
      intro t ht
      simp only [applyCall, Configuration.with_request_timeout] at ht
      cases ht
      exact hk
  | respectRobotsTxt b => exact hc
  | subdomains b => exact hc
  | tld b => exact hc
  | delay d => exact hc
  | http2PriorKnowledge b => exact hc
  | userAgent u => cases u <;> exact hc
  | proxies p => cases p <;> exact hc
  | blacklistUrl l => cases l <;> exact hc
  | headers h => cases h <;> exact hc
  | initialQueue q => exact hc

/-- A sequence of builder calls keeps the timeout-positivity invariant,
provided no call passes a zero duration to `with_request_timeout`. -/
theorem applyCalls_timeout_invariant :
    ∀ (cs : List BuilderCall) (c : Configuration),
      (∀ t, c.request_timeout = some t → 0 < t) →
      (∀ k ∈ cs, timeoutArgPositive k) →
      ∀ t, (applyCalls c cs).request_timeout = some t → 0 < t := by
  intro cs
  induction cs with
  | nil => exact fun c hc _ => hc
  | cons k ks ih =>
    intro c hc hall
    exact ih (applyCall c k)
      (applyCall_timeout_invariant c k hc (hall k (by simp)))
      (fun x hx => hall x (List.mem_cons_of_mem k hx))

/-- C3 counterexample: the claim as stated is false — the configuration
reached from `Configuration.new` by the single builder call
`with_request_timeout (some 0)` has `request_timeout` present but not
strictly positive. -/
theorem request_timeout_positive_cex :
    ¬ (∀ (cs : List BuilderCall) (t : Nat),
        (applyCalls Configuration.new cs).request_timeout = some t →
          0 < t) := by
  intro h
  exact Nat.lt_irrefl 0 (h [.requestTimeout (some 0)] 0 rfl)

/-- C3 amended: for every configuration reachable from
`Configuration.new()` by builder calls in which no `with_request_timeout`
call receives a zero duration, `request_timeout`, if present, is
strictly positive; `with_request_timeout` itself stores its argument
verbatim, so it preserves the invariant only for positive or `None`
arguments. -/
theorem request_timeout_positive_of_calls
    (cs : List BuilderCall) (hall : ∀ k ∈ cs, timeoutArgPositive k) :
    ∀ t, (applyCalls Configuration.new cs).request_timeout = some t →
      0 < t := by
  refine applyCalls_timeout_invariant cs Configuration.new ?_ hall
  intro t ht
  cases ht
  decide

/-- Witness for the amended C3 at the call sequence
`[with_request_timeout (some 7)]`. -/
theorem request_timeout_positive_of_calls_witness : 0 < 7 :=
  request_timeout_positive_of_calls [.requestTimeout (some 7)]
    (by
      intro k hk
      rw [List.mem_singleton] at hk
      subst hk
      show 0 < 7
      decide)
    7 rfl

/-- C1: for every key `k` configured with quota `q`, a crawl — modelled
as a sequence of (linearized) `admitUrl` calls — admits at most `q` URLs
resolving to `k`, and after `N` successful admissions for `k` the
remaining quota is exactly `q - N`, never negative and never skipped. -/
theorem budget_admit_quota :
    ∀ (ps : List String) (b : Budget) (k : String) (q : Nat),
      b k = some q →
      (runQuota k b ps).1 ≤ q ∧
      (runQuota k b ps).2 k = some (q - (runQuota k b ps).1) := by
  intro ps
  induction ps with
  | nil =>
    intro b k q h
    exact ⟨Nat.zero_le q, by simpa [runQuota] using h⟩
  | cons p ps ih =>
    intro b k q h
    by_cases hkey : resolveKey b p = k
    · have hbk : b (resolveKey b p) = some q := by rw [hkey]; exact h
      by_cases hq : 0 < q
      · have hadm : admitUrl b p =
            (true, fun s => if s = resolveKey b p then some (q - 1)
              else b s) := by
          simp [admitUrl, hbk, hq]
        have hfst : (admitUrl b p).1 = true := by rw [hadm]
        have hnew : (admitUrl b p).2 k = some (q - 1) := by
          rw [hadm]
          simp [hkey]
        obtain ⟨h1, h2⟩ := ih (admitUrl b p).2 k (q - 1) hnew
        constructor
        · simp only [runQuota, hfst, hkey, beq_self_eq_true,
            Bool.true_and, if_true]
          omega
        · simp only [runQuota, hfst, hkey, beq_self_eq_true,
            Bool.true_and, if_true]
          rw [h2]
          congr 1
          omega
      · have hadm : admitUrl b p = (false, b) := by
          simp [admitUrl, hbk, hq]
        have hfst : (admitUrl b p).1 = false := by rw [hadm]
        have hsnd : (admitUrl b p).2 = b := by rw [hadm]
        obtain ⟨h1, h2⟩ := ih b k q h
        constructor
        · simp only [runQuota, hfst, hsnd, Bool.false_and,
            Bool.false_eq_true, if_false, Nat.zero_add]
          exact h1
        · simp only [runQuota, hfst, hsnd, Bool.false_and,
            Bool.false_eq_true, if_false, Nat.zero_add]
          exact h2
    · have hbk2 : (admitUrl b p).2 k = b k := by
        simp only [admitUrl]
        cases hb : b (resolveKey b p) with
        | none => rfl
        | some q0 =>
          by_cases hq0 : 0 < q0
          · simp only [hq0, if_true]
            exact if_neg (fun hkk => hkey hkk.symm)
          · simp only [hq0, if_false]
      have hcount : ((resolveKey b p : String) == k) = false := by
        simp [hkey]
      obtain ⟨h1, h2⟩ := ih (admitUrl b p).2 k q (hbk2.trans h)
      constructor
      · simp only [runQuota, hcount, Bool.and_false, Bool.false_eq_true,
          if_false, Nat.zero_add]
        exact h1
      · simp only [runQuota, hcount, Bool.and_false, Bool.false_eq_true,
          if_false, Nat.zero_add]
        exact h2

/-- Witness for C1 at the budget of `examples/budget.rs` and the key
`"en"` with quota 11, over a concrete URL sequence. -/
theorem budget_admit_quota_witness :
    (runQuota "en" exampleBudget ["/en/a", "/fr/b", "/en/c"]).1 ≤ 11 ∧
    (runQuota "en" exampleBudget ["/en/a", "/fr/b", "/en/c"]).2 "en" =
      some (11 -
        (runQuota "en" exampleBudget ["/en/a", "/fr/b", "/en/c"]).1) :=
  budget_admit_quota ["/en/a", "/fr/b", "/en/c"] exampleBudget "en" 11
    (by decide)

end Spider
